import Mathlib

/-!
# Verification of the Paper2Slides pipeline orchestration core

Shallow embedding of the pipeline orchestration engine of the Paper2Slides
repository:

* the `SessionManager` session gate (`src/api/server.py`, class
  `SessionManager` and the background runner `run_pipeline_background`),
* the generation scheduler (`src/paper2slides/generator/image_generator.py`,
  `ImageGenerator.generate`, `_generate_poster`, `_generate_slides`,
  `_call_model`, `_filter_images`, `_format_sections_markdown`,
  `_format_single_section_markdown`),
* the resume-point marking performed by `generate_slides_with_pipeline`
  (`src/api/server.py`).

External collaborators (the OpenAI image-generation endpoint, the thread
pool's completion order, the filesystem) are modelled as explicit oracle
parameters; image payloads are opaque string tokens (the source's base64
encoding of the raw bytes is a bijection on payloads and is elided).
-/

namespace Paper2Slides

/-! ## SessionManager (`src/api/server.py`, lines 46-84)

State: `running_session : Optional[str]` and `cancelled_sessions : set`.
The Python `set` is modelled as a `Finset String`: `set.add` is
`Finset.insert` (no-op on members) and `set.discard` is `Finset.erase`.
All four operations run under one lock in the source, so each is a single
atomic state transition here. -/

structure SessionManager where
  running_session : Option String
  cancelled_sessions : Finset String
  deriving DecidableEq

namespace SessionManager

/-- The freshly constructed manager: no running session, empty cancel set. -/
def init : SessionManager := ⟨none, ∅⟩

/-- `start_session`: returns `False` if another session is already running,
otherwise records `session_id` as the running session and discards it from
the cancelled set (for regeneration cases). -/
def start_session (m : SessionManager) (session_id : String) :
    Bool × SessionManager :=
  match m.running_session with
  | some _ => (false, m)
  | none =>
      (true,
       { running_session := some session_id,
         cancelled_sessions := m.cancelled_sessions.erase session_id })

/-- `end_session`: clears the running session iff the caller holds it; the
cancelled flag is kept ("clean up later if needed"). -/
def end_session (m : SessionManager) (session_id : String) : SessionManager :=
  if m.running_session = some session_id then
    { m with running_session := none }
  else m

/-- `cancel_session`: if `session_id` is the running session, adds it to the
cancelled set and returns `True`; otherwise returns `False` untouched. -/
def cancel_session (m : SessionManager) (session_id : String) :
    Bool × SessionManager :=
  if m.running_session = some session_id then
    (true,
     { m with cancelled_sessions := insert session_id m.cancelled_sessions })
  else (false, m)

/-- `is_cancelled`: pure membership read of the cancelled set. -/
def is_cancelled (m : SessionManager) (session_id : String) : Bool :=
  decide (session_id ∈ m.cancelled_sessions)

/-- `get_running_session`: pure read of the running session. -/
def get_running_session (m : SessionManager) : Option String :=
  m.running_session

end SessionManager

/-- One invocation of a gate operation by some request-handling thread:
`tryStart` (`start_session`), `requestCancel` (`cancel_session`) or
`end` (`end_session`). -/
inductive GateOp where
  | start (session_id : String)
  | cancel (session_id : String)
  | stop (session_id : String)
  deriving Repr, DecidableEq

/-- Apply one gate operation to the manager state (the boolean result of
`start_session`/`cancel_session` is dropped; only the state evolves). -/
def applyGateOp (m : SessionManager) : GateOp → SessionManager
  | .start sid => (m.start_session sid).2
  | .cancel sid => (m.cancel_session sid).2
  | .stop sid => m.end_session sid

/-- Apply a sequence of gate operations left to right. -/
def applyGateOps (m : SessionManager) : List GateOp → SessionManager
  | [] => m
  | op :: ops => applyGateOps (applyGateOp m op) ops

/-! ## Background pipeline runner (`src/api/server.py`, lines 499-557)

`run_pipeline_background` wraps the whole run in `try/except/finally`; the
`finally` block calls `end_session` on every exit path (Python runs
`finally` even on the early `return` of the rejected branch).  The pipeline
body (`generate_slides_with_pipeline`) touches the gate only through reads,
so its effect is abstracted to an `Except` outcome; gate operations issued
concurrently by other request handlers while the pipeline runs are the
`midOps` parameter.  The `is_cancelled` check after the pipeline reads the
gate state as left by those concurrent operations. -/

/-- Terminal outcome of one invocation of `run_pipeline_background`. -/
inductive RunOutcome where
  | rejected
  | completed
  | errored (msg : String)
  deriving Repr, DecidableEq

/-- `run_pipeline_background`: try to start; on rejection store an error and
return (the `finally` still releases, harmlessly).  Otherwise run the
pipeline; on success of the body, a recorded cancel request is turned into
the error "Generation cancelled by user"; any raise is caught and stored;
the `finally` block always calls `end_session session_id`. -/
def run_pipeline_background (m : SessionManager) (session_id : String)
    (midOps : List GateOp) (pipeline : Except String Unit) :
    RunOutcome × SessionManager :=
  let res := m.start_session session_id
  if res.1 = false then
    (.rejected, res.2.end_session session_id)
  else
    let m2 := applyGateOps res.2 midOps
    let outcome : RunOutcome :=
      match pipeline with
      | .error e => .errored e
      | .ok _ =>
          if m2.is_cancelled session_id then
            .errored "Generation cancelled by user"
          else .completed
    (outcome, m2.end_session session_id)

/-! ## Generation scheduler data model
(`src/paper2slides/generator/image_generator.py`; the `Section`/`TableRef`/
`FigureRef`/`TableInfo`/`FigureInfo`/`ContentPlan` records are the
`content_planner` dataclasses as constructed in
`src/paper2slides/core/stages/generate_stage.py` and described in spec §3.
Optional string fields use `""` for Python's falsy `None`/empty value, as
the consumers test them only for truthiness.) -/

/-- A table reference inside a section. -/
structure TableRef where
  table_id : String
  focus : String := ""
  extract : String := ""
  deriving Repr, DecidableEq, Inhabited

/-- A figure reference inside a section. -/
structure FigureRef where
  figure_id : String
  focus : String := ""
  deriving Repr, DecidableEq, Inhabited

/-- A table of the origin document. -/
structure TableInfo where
  table_id : String
  caption : String := ""
  html_content : String := ""
  deriving Repr, DecidableEq, Inhabited

/-- A figure of the origin document. -/
structure FigureInfo where
  figure_id : String
  caption : String := ""
  image_path : String := ""
  deriving Repr, DecidableEq, Inhabited

/-- One ordered content unit of the plan. -/
structure Section where
  id : String
  title : String
  section_type : String
  content : String
  tables : List TableRef := []
  figures : List FigureRef := []
  deriving Repr, DecidableEq, Inhabited

/-- The content plan consumed by `ImageGenerator.generate`. -/
structure ContentPlan where
  output_type : String
  sections : List Section
  tables_index : List (String × TableInfo) := []
  figures_index : List (String × FigureInfo) := []
  deriving Repr, DecidableEq, Inhabited

/-- A loaded reference image, as the dicts built by `_load_figure_images`
and the style-reference dict: `{figure_id, caption, base64, mime_type}`.
Payloads are opaque tokens; the source's base64 encoding of the raw bytes
is a bijection on payloads and is elided. -/
structure RefImg where
  figure_id : String
  caption : String
  base64 : String
  mime_type : String
  deriving Repr, DecidableEq, Inhabited

/-- A generated image result (`GeneratedImage` dataclass). -/
structure GeneratedImage where
  section_id : String
  image_data : String
  mime_type : String
  deriving Repr, DecidableEq, Inhabited

/-- One `save_callback(generated_image, index, total)` invocation. -/
structure Delivery where
  img : GeneratedImage
  index : Nat
  total : Nat
  deriving Repr, DecidableEq, Inhabited

/-- Record of one `_call_model` invocation made by `_generate_slides`:
the slide index it was made for and the reference images passed.  (The
prompt is a function of the index — `slide_info` embeds `i+1` — so the
index identifies the call; the prompt text itself lives in
`paper2slides/prompts/image_generation.py`, outside the verified core,
and no claim refers to it.) -/
structure SlideCall where
  index : Nat
  refs : List RefImg
  deriving Repr, DecidableEq, Inhabited

/-- Record of one `_call_model` invocation made by `_generate_poster`:
the all-sections markdown the prompt was composed from and the reference
images passed. -/
structure PosterCall where
  sections_md : String
  refs : List RefImg
  deriving Repr, DecidableEq, Inhabited

/-- `_filter_images`: keep the loaded figure images whose id is referenced
by one of the given sections (order of `figure_images` preserved). -/
def filterImages (sections : List Section) (figure_images : List RefImg) :
    List RefImg :=
  let used_ids := sections.flatMap (fun s => s.figures.map (fun r => r.figure_id))
  figure_images.filter (fun img => used_ids.contains img.figure_id)

/-- The markdown lines `_format_single_section_markdown` appends for one
table reference. -/
def fmtTableLines (plan : ContentPlan) (ref : TableRef) : List String :=
  match plan.tables_index.lookup ref.table_id with
  | none => []
  | some table =>
      let focus_str := if ref.focus ≠ "" then " (focus: " ++ ref.focus ++ ")"
        else ""
      ["", "**" ++ ref.table_id ++ "**" ++ focus_str ++ ":",
       if ref.extract ≠ "" then ref.extract else table.html_content]

/-- The markdown lines `_format_single_section_markdown` appends for one
figure reference. -/
def fmtFigureLines (plan : ContentPlan) (ref : FigureRef) : List String :=
  match plan.figures_index.lookup ref.figure_id with
  | none => []
  | some fig =>
      let focus_str := if ref.focus ≠ "" then " (focus: " ++ ref.focus ++ ")"
        else ""
      let caption := if fig.caption ≠ "" then ": " ++ fig.caption else ""
      ["", "**" ++ ref.figure_id ++ "**" ++ focus_str ++ caption,
       "[Image attached]"]

/-- `_format_single_section_markdown`. -/
def formatSingleSectionMarkdown (s : Section) (plan : ContentPlan) : String :=
  String.intercalate "\n"
    (["## " ++ s.title, "", s.content]
      ++ s.tables.flatMap (fmtTableLines plan)
      ++ s.figures.flatMap (fmtFigureLines plan))

/-- `_format_sections_markdown`: all sections joined by a separator. -/
def formatSectionsMarkdown (plan : ContentPlan) : String :=
  String.intercalate "\n\n---\n\n"
    (plan.sections.map (formatSingleSectionMarkdown · plan))

/-- The style-reference dict built from the second slide's artifact
(`_generate_slides`, lines 186-191). -/
def mkStyleRef (image_data mime_type : String) : RefImg :=
  { figure_id := "Reference Slide",
    caption := "STRICTLY MAINTAIN: same background color, same accent color, same font style, same chart/icon style. Keep visual consistency.",
    base64 := image_data,
    mime_type := mime_type }

/-! ## `_generate_slides` (`image_generator.py`, lines 146-242)

The external `_call_model` invocation is the oracle
`callOne : index → reference images → result` (the prompt is a function of
the slide index, so the index keys the oracle; an `.error` result is a
retry-exhausted hard failure, see `callModel` below).  The thread pool is
abstracted by `completionOrder`: the order in which `as_completed` yields
the futures of the parallel batch — in any real execution a permutation of
the submitted indices `[2, ..., total-1]` (the claim theorems assume
exactly that).  `save_callback` invocations are collected in the
`deliveries` list, in the order the source performs them. -/

deriving instance DecidableEq for Except

/-- Result of one `_generate_slides` run. -/
structure SlidesRun where
  result : Except String (List GeneratedImage)
  deliveries : List Delivery
  calls : List SlideCall
  deriving Repr, DecidableEq, Inhabited

/-- Reference images for a parallel-batch slide: the style reference
followed by the slide's own figure images (`_generate_slides` lines
217-219; the style reference is always set when the batch runs, because
the batch runs only when `total > 2` and slide 2 established it). -/
def parallelRefs (sections : List Section) (figure_images : List RefImg)
    (styleRef : RefImg) (i : Nat) : List RefImg :=
  styleRef :: filterImages [sections.getD i default] figure_images

/-- One parallel-batch task (`generate_single`): call the model for slide
`i` and wrap the payload as a `GeneratedImage` for that section. -/
def parallelTask
    (callOne : Nat → List RefImg → Except String (String × String))
    (sections : List Section) (figure_images : List RefImg)
    (styleRef : RefImg) (i : Nat) : Except String GeneratedImage :=
  (callOne i (parallelRefs sections figure_images styleRef i)).map
    (fun dm => ⟨(sections.getD i default).id, dm.1, dm.2⟩)

/-- The `for future in as_completed(futures)` loop: observe task results in
completion order, delivering each success via the save callback and
collecting it into `results_dict`; the first observed failure re-raises,
ending the loop (later-completing siblings still ran, but are no longer
delivered). -/
def drain (taskRes : Nat → Except String GeneratedImage) (total : Nat) :
    List Nat → Except String (List (Nat × GeneratedImage)) × List Delivery
  | [] => (.ok [], [])
  | i :: rest =>
      match taskRes i with
      | .error e => (.error e, [])
      | .ok img =>
          let r := drain taskRes total rest
          (r.1.map (fun l => (i, img) :: l), ⟨img, i, total⟩ :: r.2)

/-- `_generate_slides`: slides 1-2 strictly sequential (slide 2's artifact
becomes the style reference), remaining slides submitted to the worker
pool, observed in completion order, then appended to the output in section
order.  The `results_dict[i]` lookup uses a default for the KeyError case,
which is unreachable in the source (`as_completed` yields every submitted
future exactly once); all theorems assume `completionOrder` is a
permutation of the submitted indices. -/
def generateSlides
    (callOne : Nat → List RefImg → Except String (String × String))
    (sections : List Section) (figure_images : List RefImg)
    (completionOrder : List Nat) : SlidesRun :=
  let total := sections.length
  match sections with
  | [] => ⟨.ok [], [], []⟩
  | s0 :: tail0 =>
      let refs0 := filterImages [s0] figure_images
      match callOne 0 refs0 with
      | .error e => ⟨.error e, [], [⟨0, refs0⟩]⟩
      | .ok (d0, m0) =>
          let img0 : GeneratedImage := ⟨s0.id, d0, m0⟩
          match tail0 with
          | [] => ⟨.ok [img0], [⟨img0, 0, total⟩], [⟨0, refs0⟩]⟩
          | s1 :: tail1 =>
              let refs1 := filterImages [s1] figure_images
              match callOne 1 refs1 with
              | .error e =>
                  ⟨.error e, [⟨img0, 0, total⟩], [⟨0, refs0⟩, ⟨1, refs1⟩]⟩
              | .ok (d1, m1) =>
                  let img1 : GeneratedImage := ⟨s1.id, d1, m1⟩
                  let seqDeliveries := [⟨img0, 0, total⟩, ⟨img1, 1, total⟩]
                  let seqCalls := [⟨0, refs0⟩, ⟨1, refs1⟩]
                  match tail1 with
                  | [] => ⟨.ok [img0, img1], seqDeliveries, seqCalls⟩
                  | _ :: _ =>
                      let styleRef := mkStyleRef d1 m1
                      let taskRes := parallelTask callOne sections
                        figure_images styleRef
                      let dr := drain taskRes total completionOrder
                      let batchCalls := (List.range' 2 (total - 2)).map
                        (fun i => (⟨i, parallelRefs sections figure_images
                          styleRef i⟩ : SlideCall))
                      match dr.1 with
                      | .error e =>
                          ⟨.error e, seqDeliveries ++ dr.2,
                           seqCalls ++ batchCalls⟩
                      | .ok dict =>
                          ⟨.ok ([img0, img1]
                              ++ (List.range' 2 (total - 2)).map
                                (fun i => (dict.lookup i).getD default)),
                           seqDeliveries ++ dr.2, seqCalls ++ batchCalls⟩

/-! ## `_generate_poster` and `generate` (`image_generator.py`,
lines 93-144) -/

/-- Result of one `_generate_poster` run. -/
structure PosterRun where
  result : Except String (List GeneratedImage)
  calls : List PosterCall
  deriving Repr, DecidableEq, Inhabited

/-- `_generate_poster`: build the single prompt from the all-sections
markdown and call the model exactly once; the oracle is keyed by the
markdown the prompt is composed from. -/
def generatePoster
    (posterCall : String → List RefImg → Except String (String × String))
    (sections_md : String) (images : List RefImg) : PosterRun :=
  match posterCall sections_md images with
  | .error e => ⟨.error e, [⟨sections_md, images⟩]⟩
  | .ok (d, m) => ⟨.ok [⟨"poster", d, m⟩], [⟨sections_md, images⟩]⟩

/-- Processed custom style returned by the LLM (`ProcessedStyle`
dataclass); `error = ""` stands for Python's `None`. -/
structure ProcessedStyle where
  style_name : String := ""
  color_tone : String := ""
  special_elements : String := ""
  decorations : String := ""
  valid : Bool := false
  error : String := ""
  deriving Repr, DecidableEq, Inhabited

/-- Result of one `ImageGenerator.generate` run. -/
structure GenRun where
  result : Except String (List GeneratedImage)
  deliveries : List Delivery
  slideCalls : List SlideCall
  posterCalls : List PosterCall
  deriving Repr, DecidableEq, Inhabited

/-- `ImageGenerator.generate`: process a custom style through the LLM
oracle (raising on an invalid one), then dispatch on the plan's output
type.  `figure_images` stands for `_load_figure_images` (filesystem);
`max_workers` is threaded through unused because its only effect in the
source is the thread-pool size, which the `completionOrder` parameter
abstracts.  On the poster path the single artifact is delivered via
`save_callback(result[0], 0, 1)`. -/
def generate
    (slideCall : Nat → List RefImg → Except String (String × String))
    (posterCall : String → List RefImg → Except String (String × String))
    (processOracle : String → ProcessedStyle)
    (figure_images : List RefImg) (plan : ContentPlan)
    (style_name custom_style : String) (max_workers : Nat)
    (completionOrder : List Nat) : GenRun :=
  let psRes : Except String (Option ProcessedStyle) :=
    if style_name = "custom" ∧ custom_style ≠ "" then
      let ps := processOracle custom_style
      if ps.valid then Except.ok (some ps)
      else Except.error ("Invalid custom style: " ++ ps.error)
    else Except.ok none
  match psRes with
  | .error e => ⟨.error e, [], [], []⟩
  | .ok _ =>
      let all_sections_md := formatSectionsMarkdown plan
      let all_images := filterImages plan.sections figure_images
      if plan.output_type = "poster" then
        let pr := generatePoster posterCall all_sections_md all_images
        match pr.result with
        | .error e => ⟨.error e, [], [], pr.calls⟩
        | .ok imgs =>
            ⟨.ok imgs,
             match imgs with
             | [] => []
             | img :: _ => [⟨img, 0, 1⟩],
             [], pr.calls⟩
      else
        let sr := generateSlides slideCall plan.sections figure_images
          completionOrder
        ⟨sr.result, sr.deliveries, sr.calls, []⟩

/-! ## `_call_model` retry loop (`image_generator.py`, lines 384-455)

One attempt of the loop body — the API call plus the validity checks on
the response — either yields a payload or fails (any of the
`RuntimeError`s or a raised exception); the oracle maps the attempt number
to that outcome.  On failure with attempts remaining the source sleeps
`retry_delay * (attempt + 1)` seconds and retries; on the last attempt it
re-raises.  The trailing `raise RuntimeError(...)` after the loop is
unreachable for `max_retries > 0` and is the fuel-0 base case here. -/

/-- `max_retries = 3`. -/
def max_retries : Nat := 3

/-- `retry_delay = 2` (seconds). -/
def retry_delay : Nat := 2

/-- Observable outcome of one `_call_model` call: the returned payload or
raised error, the number of attempts actually made, and the performed
backoff sleeps in order. -/
structure CallOutcome where
  result : Except String (String × String)
  invocations : Nat
  waits : List Nat
  deriving Repr, DecidableEq, Inhabited

/-- The `for attempt in range(max_retries)` loop, by remaining fuel and
current attempt number. -/
def callModelLoop (oracle : Nat → Except String (String × String)) :
    Nat → Nat → CallOutcome
  | 0, _ =>
      ⟨.error "Image generation failed after all retry attempts", 0, []⟩
  | remaining + 1, attempt =>
      match oracle attempt with
      | .ok res => ⟨.ok res, 1, []⟩
      | .error e =>
          if remaining = 0 then ⟨.error e, 1, []⟩
          else
            let rest := callModelLoop oracle remaining (attempt + 1)
            ⟨rest.result, rest.invocations + 1,
             retry_delay * (attempt + 1) :: rest.waits⟩

/-- `_call_model`: run the retry loop from attempt 0 with `max_retries`
attempts available. -/
def callModel (oracle : Nat → Except String (String × String)) :
    CallOutcome :=
  callModelLoop oracle max_retries 0

/-! ## Resume-point marking (`src/api/server.py`, lines 397-414)

The stage names and their fixed order are those recorded by the status
endpoint (`src/api/server.py`, lines 624-629).  `detect_start_stage`,
`create_state` and `run_pipeline` live in `paper2slides.core`, which is
not under `src/`; they are modelled from the spec where noted.  The
marking loop itself (`start_idx = STAGES.index(from_stage); for i in
range(start_idx): stages[STAGES[i]] = "completed"`) is source code. -/

/-- The fixed pipeline stage order. -/
def STAGES : List String := ["rag", "summary", "plan", "generate"]

/-- Modelled from the spec: `detect_start_stage` (in `paper2slides.core`,
not under `src/`) scans the stage checkpoints in fixed pipeline order and
returns the first stage lacking a checkpoint — the resume point.  (The
all-checkpoints-present fallback is not exercised by any claim.) -/
def detect_start_stage (hasCheckpoint : String → Bool) : String :=
  (STAGES.find? (fun s => ! hasCheckpoint s)).getD "generate"

/-- Modelled from the spec: `create_state` (in `paper2slides.core.state`,
not under `src/`) builds a fresh RunRecord stage map with every stage
`pending`. -/
def create_state : List (String × String) :=
  STAGES.map (fun s => (s, "pending"))

/-- One iteration of the marking loop: `stages[name] = status`. -/
def setStageStatus (stages : List (String × String))
    (name status : String) : List (String × String) :=
  stages.map (fun p => if p.1 = name then (p.1, status) else p)

/-- The marking loop of `generate_slides_with_pipeline`:
`for i in range(start_idx): stages[STAGES[i]] = "completed"`. -/
def markReusedStages (stages : List (String × String)) (start_idx : Nat) :
    List (String × String) :=
  (List.range start_idx).foldl
    (fun st i => setStageStatus st (STAGES.getD i "") "completed") stages

/-- The stage map of the initial RunRecord saved by
`generate_slides_with_pipeline` before `run_pipeline` starts. -/
def initialStateFor (hasCheckpoint : String → Bool) :
    List (String × String) :=
  markReusedStages create_state
    (STAGES.indexOf (detect_start_stage hasCheckpoint))

/-- Modelled from the spec: `run_pipeline` (in `paper2slides.core`, not
under `src/`) executes the stages from the resume stage onward in fixed
order, invoking each stage's work function; stages before the resume
point are reused, never invoked. -/
def invokedStages (from_stage : String) : List String :=
  STAGES.drop (STAGES.indexOf from_stage)

/-! ## Concrete instances for witnesses and counterexamples -/

/-- A four-section slides plan with no table or figure references. -/
def exampleSections : List Section :=
  [⟨"sec1", "Opening", "opening", "intro text", [], []⟩,
   ⟨"sec2", "Method", "content", "method text", [], []⟩,
   ⟨"sec3", "Results", "content", "results text", [], []⟩,
   ⟨"sec4", "Ending", "ending", "ending text", [], []⟩]

/-- A model oracle that always succeeds with a fixed payload. -/
def exampleCallOne : Nat → List RefImg → Except String (String × String) :=
  fun _ _ => .ok ("payload", "image/png")

/-- A model oracle whose section-3 call is a retry-exhausted failure. -/
def exampleFailCallOne :
    Nat → List RefImg → Except String (String × String) :=
  fun i _ => if i = 3 then .error "exhausted" else
    .ok ("payload", "image/png")

/-- A two-section poster plan. -/
def posterPlan : ContentPlan :=
  ⟨"poster",
   [⟨"sec1", "Opening", "opening", "intro text", [], []⟩,
    ⟨"sec2", "Method", "content", "method text", [], []⟩], [], []⟩

/-- A slides plan with zero sections. -/
def emptySlidesPlan : ContentPlan := ⟨"slides", [], [], []⟩

/-- An always-succeeding poster-call oracle. -/
def examplePosterCall :
    String → List RefImg → Except String (String × String) :=
  fun _ _ => .ok ("payload", "image/png")

/-- A checkpoint store holding checkpoints for exactly the first two
stages. -/
def exampleCheckpoint : String → Bool :=
  fun s => s = "rag" || s = "summary"

/-! ## Gate lemmas -/

/-- `true` iff the operation is an `end`/`stop` call (for some id). -/
def GateOp.isStop : GateOp → Bool
  | .stop _ => true
  | _ => false

/-- A gate operation that is not a `stop` leaves the holder `sid` in
place: `start` is rejected while a run is active and `cancel` only touches
the cancel set. -/
theorem applyGateOp_running_of_not_stop (m : SessionManager) (sid : String)
    (op : GateOp) (hop : op.isStop = false)
    (hrun : m.running_session = some sid) :
    (applyGateOp m op).running_session = some sid := by
  cases op with
  | start s =>
      simp only [applyGateOp, SessionManager.start_session, hrun]
  | cancel s =>
      simp only [applyGateOp, SessionManager.cancel_session]
      split <;> simpa using hrun
  | stop s => simp [GateOp.isStop] at hop

/-- While `sid` holds the gate, any single gate operation other than
`stop sid` preserves both the holder and a recorded cancel flag for `sid`. -/
theorem applyGateOp_cancel_persists (m : SessionManager) (sid : String)
    (op : GateOp) (hop : op ≠ GateOp.stop sid)
    (hrun : m.running_session = some sid)
    (hc : m.is_cancelled sid = true) :
    (applyGateOp m op).running_session = some sid
      ∧ (applyGateOp m op).is_cancelled sid = true := by
  cases op with
  | start s =>
      simp only [applyGateOp, SessionManager.start_session, hrun]
      exact ⟨trivial, hc⟩
  | cancel s =>
      simp only [applyGateOp, SessionManager.cancel_session]
      split
      · refine ⟨hrun, ?_⟩
        simp only [SessionManager.is_cancelled, decide_eq_true_eq,
          Finset.mem_insert] at hc ⊢
        exact Or.inr hc
      · exact ⟨hrun, hc⟩
  | stop s =>
      have hs : s ≠ sid := fun h => hop (by rw [h])
      simp only [applyGateOp, SessionManager.end_session, hrun]
      rw [if_neg (by simpa using fun h => hs h.symm)]
      exact ⟨hrun, hc⟩

/-- Persistence of the cancel flag over any sequence of gate operations
that does not contain `stop sid`. -/
theorem applyGateOps_cancel_persists (sid : String) (ops : List GateOp)
    (hops : ∀ o ∈ ops, o ≠ GateOp.stop sid) :
    ∀ m : SessionManager, m.running_session = some sid →
      m.is_cancelled sid = true →
      (applyGateOps m ops).running_session = some sid
        ∧ (applyGateOps m ops).is_cancelled sid = true := by
  induction ops with
  | nil => exact fun m hrun hc => ⟨hrun, hc⟩
  | cons op ops ih =>
      intro m hrun hc
      have hstep := applyGateOp_cancel_persists m sid op
        (hops op (List.mem_cons_self op ops)) hrun hc
      exact ih (fun o ho => hops o (List.mem_cons_of_mem op ho))
        (applyGateOp m op) hstep.1 hstep.2

/-- A sequence of gate operations without any `stop` keeps the holder. -/
theorem applyGateOps_running_of_no_stop (sid : String) (ops : List GateOp)
    (hops : ∀ o ∈ ops, o.isStop = false) :
    ∀ m : SessionManager, m.running_session = some sid →
      (applyGateOps m ops).running_session = some sid := by
  induction ops with
  | nil => exact fun m hrun => hrun
  | cons op ops ih =>
      intro m hrun
      exact ih (fun o ho => hops o (List.mem_cons_of_mem op ho))
        (applyGateOp m op)
        (applyGateOp_running_of_not_stop m sid op
          (hops op (List.mem_cons_self op ops)) hrun)

/-- `end_session sid` never leaves `sid` as the holder: either `sid` held
the slot and it is cleared, or the state is untouched and the holder is
someone else. -/
theorem end_session_not_holder (m : SessionManager) (sid : String) :
    (m.end_session sid).running_session ≠ some sid := by
  unfold SessionManager.end_session
  split
  · simp
  · next h => exact h

/-- `end_session` by the holder clears the slot. -/
theorem end_session_of_holder (m : SessionManager) (sid : String)
    (h : m.running_session = some sid) :
    (m.end_session sid).running_session = none := by
  simp [SessionManager.end_session, h]

/-- The gate state left behind by `run_pipeline_background` is always the
`finally`-block release applied to the state at the end of the run. -/
theorem run_pipeline_background_snd (m : SessionManager) (sid : String)
    (midOps : List GateOp) (p : Except String Unit) :
    (run_pipeline_background m sid midOps p).2
      = (if (m.start_session sid).1 = false then (m.start_session sid).2
         else applyGateOps (m.start_session sid).2 midOps).end_session
          sid := by
  by_cases h : (m.start_session sid).1 = false <;>
    simp [run_pipeline_background, h]

/-! ## Claim theorems about the session gate -/

/-- C1: SessionGate mutual exclusion.  At every instant at most one run is
active (the active-run state holds at most one id); `start_session sid`
returns `true` and records `sid` as the sole active run iff no run is
currently active, and otherwise returns `false` without changing any gate
state; after `end_session` by the holder, a subsequent `start_session` from
any id succeeds. -/
theorem start_session_mutual_exclusion (m : SessionManager) (sid : String) :
    (∀ a b : String, m.get_running_session = some a →
        m.get_running_session = some b → a = b)
    ∧ ((m.start_session sid).1 = true ↔ m.running_session = none)
    ∧ ((m.start_session sid).1 = true →
        (m.start_session sid).2.running_session = some sid)
    ∧ ((m.start_session sid).1 = false → (m.start_session sid).2 = m)
    ∧ (∀ holder sid2 : String, m.running_session = some holder →
        ((m.end_session holder).start_session sid2).1 = true) := by
  refine ⟨?_, ?_, ?_, ?_, ?_⟩
  · intro a b ha hb
    rw [SessionManager.get_running_session] at ha hb
    rw [ha] at hb
    exact Option.some.inj hb
  · cases h : m.running_session <;>
      simp [SessionManager.start_session, h]
  · cases h : m.running_session <;>
      simp [SessionManager.start_session, h]
  · cases h : m.running_session <;>
      simp [SessionManager.start_session, h]
  · intro holder sid2 hh
    have hend : m.end_session holder = { m with running_session := none } := by
      simp [SessionManager.end_session, hh]
    rw [hend]
    simp [SessionManager.start_session]

/-- Witness for C1: with "a" holding the gate, after the holder's
`end_session` a fresh `start_session` from "b" succeeds. -/
theorem start_session_mutual_exclusion_witness :
    (((SessionManager.mk (some "a") ∅).end_session "a").start_session
      "b").1 = true :=
  (start_session_mutual_exclusion ⟨some "a", ∅⟩ "b").2.2.2.2 "a" "b" rfl

/-- C2: guaranteed release.  For every run of `run_pipeline_background`,
the `finally` block releases the gate slot: the terminating session id is
never left as the holder; if the run was admitted (and concurrent gate
traffic contains no `end` call) the slot is free afterwards; and the gate
state left behind is identical for every pipeline outcome — the release
does not depend on which exit path terminated the run. -/
theorem session_released_on_every_exit_path (m : SessionManager)
    (sid : String) (midOps : List GateOp) (p p' : Except String Unit)
    (hmid : ∀ o ∈ midOps, o.isStop = false) :
    (run_pipeline_background m sid midOps p).2.running_session ≠ some sid
    ∧ ((m.start_session sid).1 = true →
        (run_pipeline_background m sid midOps p).2.running_session = none)
    ∧ (run_pipeline_background m sid midOps p).2
        = (run_pipeline_background m sid midOps p').2 := by
  refine ⟨?_, ?_, ?_⟩
  · rw [run_pipeline_background_snd]
    exact end_session_not_holder _ sid
  · intro hstart
    rw [run_pipeline_background_snd]
    rw [if_neg (by simp [hstart])]
    refine end_session_of_holder _ sid ?_
    refine applyGateOps_running_of_no_stop sid midOps hmid _ ?_
    cases h : m.running_session with
    | some a => simp [SessionManager.start_session, h] at hstart
    | none => simp [SessionManager.start_session, h]
  · rw [run_pipeline_background_snd, run_pipeline_background_snd]

/-- Witness for C2: an admitted run of the fresh gate, with a concurrent
cancel request mid-run, ends with the slot free on both the success and
the fault exit path. -/
theorem session_released_on_every_exit_path_witness :
    (run_pipeline_background SessionManager.init "a" [GateOp.cancel "a"]
      (Except.ok ())).2.running_session = none :=
  (session_released_on_every_exit_path SessionManager.init "a"
      [GateOp.cancel "a"] (Except.ok ()) (Except.error "boom")
      (by decide)).2.1 (by decide)

/-- C3: cancellation request semantics.  `cancel_session sid` on a
non-active id returns `false` and changes no gate state; on the active id
it returns `true`, `is_cancelled sid` becomes `true`, and it stays `true`
across any sequence of gate operations that does not contain
`end_session sid`. -/
theorem cancel_session_semantics (m : SessionManager) (sid : String) :
    (m.running_session ≠ some sid → m.cancel_session sid = (false, m))
    ∧ (m.running_session = some sid →
        (m.cancel_session sid).1 = true
        ∧ (m.cancel_session sid).2.is_cancelled sid = true
        ∧ ∀ ops : List GateOp, (∀ o ∈ ops, o ≠ GateOp.stop sid) →
            (applyGateOps (m.cancel_session sid).2 ops).is_cancelled sid
              = true) := by
  constructor
  · intro hne
    simp [SessionManager.cancel_session, hne]
  · intro hrun
    have h1 : (m.cancel_session sid).1 = true := by
      simp [SessionManager.cancel_session, hrun]
    have h2s : (m.cancel_session sid).2.running_session = some sid := by
      simp [SessionManager.cancel_session, hrun]
    have h2 : (m.cancel_session sid).2.is_cancelled sid = true := by
      simp [SessionManager.cancel_session, hrun, SessionManager.is_cancelled]
    exact ⟨h1, h2, fun ops hops =>
      (applyGateOps_cancel_persists sid ops hops _ h2s h2).2⟩

/-- Witness for C3: cancelling the active run "a" records the flag and it
survives a later losing `start_session` and an `end_session` by "b". -/
theorem cancel_session_semantics_witness :
    ((SessionManager.mk (some "a") ∅).cancel_session "b"
        = (false, SessionManager.mk (some "a") ∅))
    ∧ (applyGateOps ((SessionManager.mk (some "a") ∅).cancel_session "a").2
        [GateOp.start "c", GateOp.stop "b"]).is_cancelled "a" = true :=
  ⟨(cancel_session_semantics ⟨some "a", ∅⟩ "b").1 (by decide),
   ((cancel_session_semantics ⟨some "a", ∅⟩ "a").2 rfl).2.2
     [GateOp.start "c", GateOp.stop "b"] (by decide)⟩

/-- C10: a successful `start_session sid` discards `sid` from the
cancelled set, so every newly admitted run begins with
`is_cancelled sid = false`, even if a cancel request was recorded for a
previous run with the same id. -/
theorem start_session_resets_cancel_flag (m : SessionManager) (sid : String)
    (h : (m.start_session sid).1 = true) :
    (m.start_session sid).2.is_cancelled sid = false := by
  cases hr : m.running_session with
  | some a => simp [SessionManager.start_session, hr] at h
  | none =>
      simp [SessionManager.start_session, hr, SessionManager.is_cancelled]

/-- Witness for C10: a gate whose cancel set still holds "a" from an
earlier run admits "a" afresh with a clear cancel flag. -/
theorem start_session_resets_cancel_flag_witness :
    ((SessionManager.mk none {"a"}).start_session "a").2.is_cancelled "a"
      = false :=
  start_session_resets_cancel_flag ⟨none, {"a"}⟩ "a" (by decide)

/-- C6: per-section retry policy.  `_call_model` makes between 1 and 3
attempts; after a failed attempt `n` (1-based) it waits `2·n` time units
before the next attempt; failing twice then succeeding on the 3rd attempt
yields the successful payload with exactly 3 invocations (after waits 2
then 4); all 3 attempts failing yields the final error after exactly 3
invocations; and a hard failure is surfaced only when all 3 attempts
failed. -/
theorem call_model_retry_policy
    (oracle : Nat → Except String (String × String)) :
    ((callModel oracle).invocations ≤ 3
      ∧ 1 ≤ (callModel oracle).invocations)
    ∧ (∀ e0 img, oracle 0 = .error e0 → oracle 1 = .ok img →
        callModel oracle = ⟨.ok img, 2, [2]⟩)
    ∧ (∀ e0 e1 img, oracle 0 = .error e0 → oracle 1 = .error e1 →
        oracle 2 = .ok img → callModel oracle = ⟨.ok img, 3, [2, 4]⟩)
    ∧ (∀ e0 e1 e2, oracle 0 = .error e0 → oracle 1 = .error e1 →
        oracle 2 = .error e2 → callModel oracle = ⟨.error e2, 3, [2, 4]⟩)
    ∧ (∀ e, (callModel oracle).result = .error e →
        (∃ e0, oracle 0 = .error e0) ∧ (∃ e1, oracle 1 = .error e1)
          ∧ oracle 2 = .error e) := by
  refine ⟨?_, ?_, ?_, ?_, ?_⟩ <;>
    cases h0 : oracle 0 <;> cases h1 : oracle 1 <;> cases h2 : oracle 2 <;>
      simp_all [callModel, callModelLoop, max_retries, retry_delay]

/-- Witness for C6: an oracle failing on attempts 1 and 2 and succeeding
on attempt 3 produces the payload with exactly 3 invocations and backoff
waits 2 then 4. -/
theorem call_model_retry_policy_witness :
    callModel (fun n => if n < 2 then Except.error "transient"
        else Except.ok ("payload", "image/png"))
      = ⟨.ok ("payload", "image/png"), 3, [2, 4]⟩ :=
  (call_model_retry_policy _).2.2.1 "transient" "transient"
    ("payload", "image/png") rfl rfl rfl

/-! ## Scheduler lemmas -/

/-- `drain` over tasks that all succeed: the dict collects every task in
completion order and every artifact is delivered, in completion order. -/
theorem drain_ok (taskRes : Nat → Except String GeneratedImage)
    (total : Nat) (f : Nat → GeneratedImage) :
    ∀ order : List Nat, (∀ i ∈ order, taskRes i = .ok (f i)) →
      drain taskRes total order
        = (.ok (order.map (fun i => (i, f i))),
           order.map (fun i => ⟨f i, i, total⟩)) := by
  intro order
  induction order with
  | nil => intro _; simp [drain]
  | cons i rest ih =>
      intro h
      have hi := h i (List.mem_cons_self i rest)
      have hrest := ih (fun j hj => h j (List.mem_cons_of_mem i hj))
      simp [drain, hi, hrest, Except.map]

/-- `drain` over a completion order in which every task before `j`
succeeds and `j` fails: the loop delivers exactly the tasks preceding `j`
and re-raises `j`'s error; tasks completing after `j` are not delivered. -/
theorem drain_error (taskRes : Nat → Except String GeneratedImage)
    (total : Nat) (f : Nat → GeneratedImage) (j : Nat) (e : String)
    (hj : taskRes j = .error e) :
    ∀ pre : List Nat, (∀ i ∈ pre, taskRes i = .ok (f i)) →
      ∀ post : List Nat,
        drain taskRes total (pre ++ j :: post)
          = (.error e, pre.map (fun i => ⟨f i, i, total⟩)) := by
  intro pre
  induction pre with
  | nil => intro _ post; simp [drain, hj]
  | cons i rest ih =>
      intro h post
      have hi := h i (List.mem_cons_self i rest)
      have hrest := ih (fun j' hj' => h j' (List.mem_cons_of_mem i hj')) post
      simp [drain, hi, hrest, Except.map]

/-- Association-list lookup over an index-keyed map of a function. -/
theorem lookup_map_self (f : Nat → GeneratedImage) :
    ∀ (order : List Nat) (i : Nat), i ∈ order →
      (order.map (fun j => (j, f j))).lookup i = some (f i) := by
  intro order
  induction order with
  | nil => simp
  | cons k rest ih =>
      intro i hi
      by_cases hik : k = i
      · subst hik
        simp [List.lookup]
      · have hmem : i ∈ rest := by
          rcases List.mem_cons.mp hi with h | h
          · exact absurd h.symm hik
          · exact h
        have hbeq : (i == k) = false := by
          simpa using fun h => hik h.symm
        simp [List.lookup, hbeq, ih i hmem]

/-- Mapping a per-index read of a list shifted by the two sequential
slides over the parallel index range recovers the tail in order. -/
theorem map_getD_range'_two {β : Type} (g : Section → β)
    (s0 s1 : Section) (u : List Section) :
    (List.range' 2 u.length).map
        (fun i => g ((s0 :: s1 :: u).getD i default))
      = u.map g := by
  apply List.ext_getElem
  · simp
  · intro n h1 h2
    have hn : n < u.length := by simpa using h2
    simp only [List.getElem_map, List.getElem_range'_1]
    rw [show 2 + n = n + 1 + 1 by omega, List.getD_cons_succ,
      List.getD_cons_succ, List.getD_eq_getElem u default hn]

/-- `range (k+3)` decomposed as the two sequential indices followed by
the parallel batch indices. -/
theorem range_two_cons (k : Nat) :
    List.range (k + 3) = 0 :: 1 :: List.range' 2 (k + 1) := by
  rw [List.range_eq_range', show k + 3 = (k + 2) + 1 from rfl,
    List.range'_succ, show k + 2 = (k + 1) + 1 from rfl, List.range'_succ]

/-- Projecting the index out of index-tagged slide calls is the
identity. -/
theorem map_slideCall_index (g : Nat → List RefImg) (l : List Nat) :
    l.map (SlideCall.index ∘ fun i => (⟨i, g i⟩ : SlideCall)) = l := by
  induction l with
  | nil => rfl
  | cons a t ih =>
      simp only [List.map_cons, ih]
      rfl

/-- Projecting the index out of index-tagged deliveries is the
identity. -/
theorem map_delivery_index (h : Nat → GeneratedImage) (t : Nat)
    (l : List Nat) :
    l.map (Delivery.index ∘ fun i => (⟨h i, i, t⟩ : Delivery)) = l := by
  induction l with
  | nil => rfl
  | cons a u ih =>
      simp only [List.map_cons, ih]
      rfl

/-- C4 (amended): slides-mode ordering.  For every section list and every
permutation of the parallel indices as completion order (the thread pool
makes any such order possible when `maxParallel ≥ 2`), a fully successful
slides run produces exactly one artifact per section; sections 0 and 1 are
called strictly sequentially before any parallel section (the call log is
`[0, 1, 2, ..., n-1]` in submission order); parallel sections may complete
in any relative order, and the returned list is re-ordered back into
section order — but the streamed (save-callback) deliveries for sections
≥ 2 occur in completion order, which may differ from section order (see
the counterexample). -/
theorem generate_slides_ordering
    (callOne : Nat → List RefImg → Except String (String × String))
    (sections : List Section) (figure_images : List RefImg)
    (completionOrder : List Nat)
    (ok : Nat → List RefImg → String × String)
    (hok : ∀ i refs, callOne i refs = .ok (ok i refs))
    (hperm : completionOrder.Perm
      (List.range' 2 (sections.length - 2))) :
    ∃ imgs : List GeneratedImage,
      (generateSlides callOne sections figure_images
          completionOrder).result = .ok imgs
      ∧ imgs.length = sections.length
      ∧ imgs.map GeneratedImage.section_id = sections.map Section.id
      ∧ (generateSlides callOne sections figure_images
            completionOrder).calls.map SlideCall.index
          = List.range sections.length
      ∧ (generateSlides callOne sections figure_images
            completionOrder).deliveries.map Delivery.index
          = List.range (min 2 sections.length) ++ completionOrder := by
  match sections with
  | [] =>
      have hco : completionOrder = [] := by
        simpa using hperm.eq_nil
      subst hco
      exact ⟨[], by simp [generateSlides]⟩
  | [s0] =>
      have hco : completionOrder = [] := by
        simpa using hperm.eq_nil
      subst hco
      refine ⟨[⟨s0.id, (ok 0 (filterImages [s0] figure_images)).1,
        (ok 0 (filterImages [s0] figure_images)).2⟩], ?_⟩
      simp [generateSlides, hok]
      decide
  | [s0, s1] =>
      have hco : completionOrder = [] := by
        simpa using hperm.eq_nil
      subst hco
      refine ⟨[⟨s0.id, (ok 0 (filterImages [s0] figure_images)).1,
        (ok 0 (filterImages [s0] figure_images)).2⟩,
        ⟨s1.id, (ok 1 (filterImages [s1] figure_images)).1,
        (ok 1 (filterImages [s1] figure_images)).2⟩], ?_⟩
      simp [generateSlides, hok]
      decide
  | s0 :: s1 :: s2 :: rest =>
      have hok' : ∀ i refs, callOne i refs
          = .ok ((ok i refs).1, (ok i refs).2) := by
        intro i refs; rw [hok]
      set styleRef := mkStyleRef (ok 1 (filterImages [s1] figure_images)).1
        (ok 1 (filterImages [s1] figure_images)).2 with hstyle
      set f : Nat → GeneratedImage := fun i =>
        ⟨((s0 :: s1 :: s2 :: rest).getD i default).id,
         (ok i (parallelRefs (s0 :: s1 :: s2 :: rest) figure_images
           styleRef i)).1,
         (ok i (parallelRefs (s0 :: s1 :: s2 :: rest) figure_images
           styleRef i)).2⟩ with hf
      have htask : ∀ i ∈ completionOrder,
          parallelTask callOne (s0 :: s1 :: s2 :: rest) figure_images
            styleRef i = .ok (f i) := by
        intro i _
        simp [parallelTask, hok, hf, Except.map]
      have hdrain := drain_ok
        (parallelTask callOne (s0 :: s1 :: s2 :: rest) figure_images styleRef)
        (s0 :: s1 :: s2 :: rest).length f completionOrder htask
      have hmapf : (List.range' 2 ((s0 :: s1 :: s2 :: rest).length - 2)).map
          (fun i => ((completionOrder.map (fun j => (j, f j))).lookup i).getD
            default)
        = (List.range' 2 ((s0 :: s1 :: s2 :: rest).length - 2)).map f := by
        apply List.map_congr_left
        intro a ha
        have hmem : a ∈ completionOrder := hperm.mem_iff.mpr ha
        rw [lookup_map_self f completionOrder a hmem]
        rfl
      refine ⟨[⟨s0.id, (ok 0 (filterImages [s0] figure_images)).1,
          (ok 0 (filterImages [s0] figure_images)).2⟩,
        ⟨s1.id, (ok 1 (filterImages [s1] figure_images)).1,
          (ok 1 (filterImages [s1] figure_images)).2⟩]
        ++ (List.range' 2 ((s0 :: s1 :: s2 :: rest).length - 2)).map f,
        ?_, ?_, ?_, ?_, ?_⟩
      · simp only [generateSlides, hok', hdrain, hmapf]
      · simp [List.length_range']
      · have h2 : (s0 :: s1 :: s2 :: rest).length - 2
            = (s2 :: rest).length := by simp
        have hmgr := map_getD_range'_two Section.id s0 s1 (s2 :: rest)
        simp only [List.map_append, List.map_cons, List.map_nil,
          List.map_map, h2]
        have hcomp : (GeneratedImage.section_id ∘ f)
            = fun i => ((s0 :: s1 :: s2 :: rest).getD i default).id := rfl
        rw [hcomp, hmgr]
        simp
      · simp only [generateSlides, hok', hdrain, hmapf]
        simp only [List.map_append, List.map_cons, List.map_nil,
          List.map_map, List.length_cons]
        rw [map_slideCall_index]
        rw [show rest.length + 1 + 1 + 1 = rest.length + 3 by omega,
          range_two_cons]
        rfl
      · simp only [generateSlides, hok', hdrain, hmapf]
        simp only [List.map_append, List.map_cons, List.map_nil,
          List.map_map, List.length_cons]
        rw [map_delivery_index]
        simp [List.range_succ]

/-- C5: no fail-fast and delivery preservation.  When the sequential
slides succeed, the parallel sections completing before `j` succeed, and
section `j`'s call is a (retry-exhausted) failure, the whole call
terminates with that error; every sibling section was still submitted and
called (no cancellation); and the save callback was invoked exactly
`2 + pre.length` times — once per section that succeeded before the
failing call — and those deliveries remain delivered. -/
theorem generate_slides_failure_isolation
    (callOne : Nat → List RefImg → Except String (String × String))
    (s0 s1 s2 : Section) (rest : List Section)
    (figure_images : List RefImg)
    (ok : Nat → List RefImg → String × String)
    (pre post : List Nat) (j : Nat) (e : String)
    (hseq0 : ∀ refs, callOne 0 refs = .ok (ok 0 refs))
    (hseq1 : ∀ refs, callOne 1 refs = .ok (ok 1 refs))
    (hpre : ∀ i ∈ pre, ∀ refs, callOne i refs = .ok (ok i refs))
    (hj : ∀ refs, callOne j refs = .error e) :
    (generateSlides callOne (s0 :: s1 :: s2 :: rest) figure_images
        (pre ++ j :: post)).result = .error e
    ∧ (generateSlides callOne (s0 :: s1 :: s2 :: rest) figure_images
          (pre ++ j :: post)).calls.map SlideCall.index
        = List.range (s0 :: s1 :: s2 :: rest).length
    ∧ (generateSlides callOne (s0 :: s1 :: s2 :: rest) figure_images
          (pre ++ j :: post)).deliveries.length = 2 + pre.length
    ∧ (generateSlides callOne (s0 :: s1 :: s2 :: rest) figure_images
          (pre ++ j :: post)).deliveries.map Delivery.index
        = [0, 1] ++ pre := by
  have hseq0' : ∀ refs, callOne 0 refs
      = .ok ((ok 0 refs).1, (ok 0 refs).2) := by
    intro refs; rw [hseq0]
  have hseq1' : ∀ refs, callOne 1 refs
      = .ok ((ok 1 refs).1, (ok 1 refs).2) := by
    intro refs; rw [hseq1]
  set styleRef := mkStyleRef (ok 1 (filterImages [s1] figure_images)).1
    (ok 1 (filterImages [s1] figure_images)).2 with hstyle
  set f : Nat → GeneratedImage := fun i =>
    ⟨((s0 :: s1 :: s2 :: rest).getD i default).id,
     (ok i (parallelRefs (s0 :: s1 :: s2 :: rest) figure_images
       styleRef i)).1,
     (ok i (parallelRefs (s0 :: s1 :: s2 :: rest) figure_images
       styleRef i)).2⟩ with hf
  have htaskj : parallelTask callOne (s0 :: s1 :: s2 :: rest) figure_images
      styleRef j = .error e := by
    simp [parallelTask, hj, Except.map]
  have htaskpre : ∀ i ∈ pre,
      parallelTask callOne (s0 :: s1 :: s2 :: rest) figure_images
        styleRef i = .ok (f i) := by
    intro i hi
    simp [parallelTask, hpre i hi, hf, Except.map]
  have hdrain := drain_error
    (parallelTask callOne (s0 :: s1 :: s2 :: rest) figure_images styleRef)
    (s0 :: s1 :: s2 :: rest).length f j e htaskj pre htaskpre post
  refine ⟨?_, ?_, ?_, ?_⟩
  · simp only [generateSlides, hseq0', hseq1', hdrain]
  · simp only [generateSlides, hseq0', hseq1', hdrain]
    simp only [List.map_append, List.map_cons, List.map_nil,
      List.map_map, List.length_cons]
    rw [map_slideCall_index]
    rw [show rest.length + 1 + 1 + 1 = rest.length + 3 by omega,
      range_two_cons]
    rfl
  · simp only [generateSlides, hseq0', hseq1', hdrain]
    simp [List.length_append]
    omega
  · simp only [generateSlides, hseq0', hseq1', hdrain]
    simp only [List.map_append, List.map_cons, List.map_nil,
      List.map_map, List.length_cons]
    rw [map_delivery_index]

/-- A section referencing no figures selects no figure images. -/
theorem filterImages_nil_figures (s : Section) (h : s.figures = [])
    (figure_images : List RefImg) : filterImages [s] figure_images = [] := by
  simp [filterImages, h]

/-- C7 (amended): StyleReference carry-forward.  In a run with at least
three sections, the artifact produced for section 1 becomes the style
reference passed (first) to every parallel generation call (index ≥ 2),
while the calls for sections 0 and 1 carry no style reference; in a run
with exactly one section no style reference is constructed — the single
generation call receives only the section's own figure images, and no
reference image at all when the section references no figures. -/
theorem style_reference_carry_forward
    (callOne : Nat → List RefImg → Except String (String × String))
    (figure_images : List RefImg) (completionOrder : List Nat) :
    (∀ (s0 s1 s2 : Section) (rest : List Section) (d0 m0 d1 m1 : String),
       (∀ refs, callOne 0 refs = .ok (d0, m0)) →
       (∀ refs, callOne 1 refs = .ok (d1, m1)) →
       (generateSlides callOne (s0 :: s1 :: s2 :: rest) figure_images
           completionOrder).calls
         = ⟨0, filterImages [s0] figure_images⟩
           :: ⟨1, filterImages [s1] figure_images⟩
           :: (List.range' 2 ((s0 :: s1 :: s2 :: rest).length - 2)).map
                (fun i => ⟨i, mkStyleRef d1 m1 ::
                  filterImages [(s0 :: s1 :: s2 :: rest).getD i default]
                    figure_images⟩))
    ∧ (∀ s : Section,
        (generateSlides callOne [s] figure_images completionOrder).calls
          = [⟨0, filterImages [s] figure_images⟩])
    ∧ (∀ s : Section, s.figures = [] →
        (generateSlides callOne [s] figure_images completionOrder).calls
          = [⟨0, []⟩]) := by
  refine ⟨?_, ?_, ?_⟩
  · intro s0 s1 s2 rest d0 m0 d1 m1 h0 h1
    cases hdr : (drain (parallelTask callOne (s0 :: s1 :: s2 :: rest)
        figure_images (mkStyleRef d1 m1))
        (s0 :: s1 :: s2 :: rest).length completionOrder).1 with
    | error e =>
        simp only [List.length_cons] at hdr
        simp [generateSlides, h0, h1, hdr, parallelRefs]
    | ok dict =>
        simp only [List.length_cons] at hdr
        simp [generateSlides, h0, h1, hdr, parallelRefs]
  · intro s
    cases hc : callOne 0 (filterImages [s] figure_images) with
    | error e => simp [generateSlides, hc]
    | ok dm =>
        obtain ⟨d, m⟩ := dm
        simp [generateSlides, hc]
  · intro s hfig
    have hfil := filterImages_nil_figures s hfig figure_images
    cases hc : callOne 0 (filterImages [s] figure_images) with
    | error e =>
        rw [hfil] at hc
        simp [generateSlides, hc, hfil]
    | ok dm =>
        obtain ⟨d, m⟩ := dm
        rw [hfil] at hc
        simp [generateSlides, hc, hfil]

/-- On the poster path, `generate` is the single `_generate_poster` shot:
one model call keyed by the all-sections markdown, independent of
`max_workers` and of the pool completion order. -/
theorem generate_poster_path
    (slideCall : Nat → List RefImg → Except String (String × String))
    (posterCall : String → List RefImg → Except String (String × String))
    (processOracle : String → ProcessedStyle)
    (figure_images : List RefImg) (plan : ContentPlan)
    (style_name custom_style : String) (max_workers : Nat)
    (completionOrder : List Nat)
    (hstyle : style_name = "custom" → custom_style ≠ "" →
      (processOracle custom_style).valid = true)
    (hp : plan.output_type = "poster") :
    generate slideCall posterCall processOracle figure_images plan
        style_name custom_style max_workers completionOrder
      = match posterCall (formatSectionsMarkdown plan)
          (filterImages plan.sections figure_images) with
        | .error e =>
            ⟨.error e, [], [],
             [⟨formatSectionsMarkdown plan,
               filterImages plan.sections figure_images⟩]⟩
        | .ok (d, m) =>
            ⟨.ok [⟨"poster", d, m⟩], [⟨⟨"poster", d, m⟩, 0, 1⟩], [],
             [⟨formatSectionsMarkdown plan,
               filterImages plan.sections figure_images⟩]⟩ := by
  cases hpc : posterCall (formatSectionsMarkdown plan)
      (filterImages plan.sections figure_images) with
  | error e =>
      by_cases hcust : style_name = "custom" ∧ custom_style ≠ ""
      · have hv := hstyle hcust.1 hcust.2
        simp [generate, generatePoster, hp, hcust, hv, hpc]
      · simp [generate, generatePoster, hp, hcust, hpc]
  | ok dm =>
      obtain ⟨d, m⟩ := dm
      by_cases hcust : style_name = "custom" ∧ custom_style ≠ ""
      · have hv := hstyle hcust.1 hcust.2
        simp [generate, generatePoster, hp, hcust, hv, hpc]
      · simp [generate, generatePoster, hp, hcust, hpc]

/-- C8: poster-mode single shot.  For every plan whose output type is
"poster", `generate` makes exactly one model invocation, whose prompt is
composed from the markdown of all the plan's sections, and no slide
calls; the run is identical for every `max_workers` and completion order
(`maxParallel` is ignored); when the call succeeds the result is exactly
one artifact, delivered once via the save callback; and a slides run with
zero sections yields the empty result, not an error. -/
theorem poster_single_shot
    (slideCall : Nat → List RefImg → Except String (String × String))
    (posterCall : String → List RefImg → Except String (String × String))
    (processOracle : String → ProcessedStyle)
    (figure_images : List RefImg) (plan : ContentPlan)
    (style_name custom_style : String) (max_workers : Nat)
    (completionOrder : List Nat)
    (hstyle : style_name = "custom" → custom_style ≠ "" →
      (processOracle custom_style).valid = true) :
    (plan.output_type = "poster" →
      (generate slideCall posterCall processOracle figure_images plan
          style_name custom_style max_workers completionOrder).posterCalls
        = [⟨formatSectionsMarkdown plan,
            filterImages plan.sections figure_images⟩]
      ∧ (generate slideCall posterCall processOracle figure_images plan
          style_name custom_style max_workers completionOrder).slideCalls
        = []
      ∧ (∀ (mw2 : Nat) (co2 : List Nat),
          generate slideCall posterCall processOracle figure_images plan
            style_name custom_style max_workers completionOrder
          = generate slideCall posterCall processOracle figure_images plan
            style_name custom_style mw2 co2)
      ∧ (∀ d m, posterCall (formatSectionsMarkdown plan)
            (filterImages plan.sections figure_images) = .ok (d, m) →
          (generate slideCall posterCall processOracle figure_images plan
              style_name custom_style max_workers completionOrder).result
            = .ok [⟨"poster", d, m⟩]
          ∧ (generate slideCall posterCall processOracle figure_images plan
              style_name custom_style max_workers
              completionOrder).deliveries
            = [⟨⟨"poster", d, m⟩, 0, 1⟩]))
    ∧ (plan.output_type ≠ "poster" → plan.sections = [] →
        generate slideCall posterCall processOracle figure_images plan
          style_name custom_style max_workers completionOrder
        = ⟨.ok [], [], [], []⟩) := by
  constructor
  · intro hp
    have hgen := generate_poster_path slideCall posterCall processOracle
      figure_images plan style_name custom_style max_workers
      completionOrder hstyle hp
    refine ⟨?_, ?_, ?_, ?_⟩
    · cases hpc : posterCall (formatSectionsMarkdown plan)
          (filterImages plan.sections figure_images) with
      | error e => rw [hgen, hpc]
      | ok dm => obtain ⟨d, m⟩ := dm; rw [hgen, hpc]
    · cases hpc : posterCall (formatSectionsMarkdown plan)
          (filterImages plan.sections figure_images) with
      | error e => rw [hgen, hpc]
      | ok dm => obtain ⟨d, m⟩ := dm; rw [hgen, hpc]
    · intro mw2 co2
      rw [hgen, generate_poster_path slideCall posterCall processOracle
        figure_images plan style_name custom_style mw2 co2 hstyle hp]
    · intro d m hdm
      rw [hgen, hdm]
      exact ⟨rfl, rfl⟩
  · intro hnp hsec
    by_cases hcust : style_name = "custom" ∧ custom_style ≠ ""
    · have hv := hstyle hcust.1 hcust.2
      simp [generate, hcust, hv, hnp, hsec, generateSlides]
    · simp [generate, hcust, hnp, hsec, generateSlides]

/-- C9: resume-point marking.  If checkpoints exist for stages `0..k-1`
and are absent for stage `k`, the detected resume point is stage `k`; the
freshly saved RunRecord marks exactly stages `0..k-1` as `completed` and
the rest `pending`; and the pipeline invokes only the stages from `k`
onward — the work functions of stages `0..k-1` are never invoked. -/
theorem resume_point_marking (hasCheckpoint : String → Bool) (k : Nat)
    (hk : k < STAGES.length)
    (hbefore : ∀ i, i < k → hasCheckpoint (STAGES.getD i "") = true)
    (habsent : hasCheckpoint (STAGES.getD k "") = false) :
    detect_start_stage hasCheckpoint = STAGES.getD k ""
    ∧ initialStateFor hasCheckpoint
        = (List.range STAGES.length).map
            (fun i => (STAGES.getD i "",
              if i < k then "completed" else "pending"))
    ∧ invokedStages (detect_start_stage hasCheckpoint) = STAGES.drop k
    ∧ (∀ i, i < k → STAGES.getD i ""
        ∉ invokedStages (detect_start_stage hasCheckpoint)) := by
  have hk4 : k < 4 := by simpa [STAGES] using hk
  interval_cases k
  · simp [STAGES] at habsent
    have hd : detect_start_stage hasCheckpoint = "rag" := by
      simp [detect_start_stage, STAGES, List.find?, habsent]
    refine ⟨hd, ?_, ?_, ?_⟩
    · simp only [initialStateFor, hd]
      decide
    · simp only [invokedStages, hd]
      decide
    · intro i hi
      exact absurd hi (Nat.not_lt_zero i)
  · have h0 := hbefore 0 (by omega)
    simp [STAGES] at h0 habsent
    have hd : detect_start_stage hasCheckpoint = "summary" := by
      simp [detect_start_stage, STAGES, List.find?, h0, habsent]
    refine ⟨hd, ?_, ?_, ?_⟩
    · simp only [initialStateFor, hd]
      decide
    · simp only [invokedStages, hd]
      decide
    · intro i hi
      interval_cases i
      simp only [invokedStages, hd]
      decide
  · have h0 := hbefore 0 (by omega)
    have h1 := hbefore 1 (by omega)
    simp [STAGES] at h0 h1 habsent
    have hd : detect_start_stage hasCheckpoint = "plan" := by
      simp [detect_start_stage, STAGES, List.find?, h0, h1, habsent]
    refine ⟨hd, ?_, ?_, ?_⟩
    · simp only [initialStateFor, hd]
      decide
    · simp only [invokedStages, hd]
      decide
    · intro i hi
      interval_cases i <;>
        · simp only [invokedStages, hd]
          decide
  · have h0 := hbefore 0 (by omega)
    have h1 := hbefore 1 (by omega)
    have h2 := hbefore 2 (by omega)
    simp [STAGES] at h0 h1 h2 habsent
    have hd : detect_start_stage hasCheckpoint = "generate" := by
      simp [detect_start_stage, STAGES, List.find?, h0, h1, h2, habsent]
    refine ⟨hd, ?_, ?_, ?_⟩
    · simp only [initialStateFor, hd]
      decide
    · simp only [invokedStages, hd]
      decide
    · intro i hi
      interval_cases i <;>
        · simp only [invokedStages, hd]
          decide

/-- Witness for C4: a concrete 4-section run with completion order
`[3, 2]` satisfies the amended ordering theorem. -/
theorem generate_slides_ordering_witness :
    ∃ imgs : List GeneratedImage,
      (generateSlides exampleCallOne exampleSections [] [3, 2]).result
          = .ok imgs
      ∧ imgs.length = exampleSections.length
      ∧ imgs.map GeneratedImage.section_id
          = exampleSections.map Section.id
      ∧ (generateSlides exampleCallOne exampleSections []
            [3, 2]).calls.map SlideCall.index
          = List.range exampleSections.length
      ∧ (generateSlides exampleCallOne exampleSections []
            [3, 2]).deliveries.map Delivery.index
          = List.range (min 2 exampleSections.length) ++ [3, 2] :=
  generate_slides_ordering exampleCallOne exampleSections [] [3, 2]
    (fun _ _ => ("payload", "image/png")) (fun _ _ => rfl) (by decide)

/-- Counterexample to C4 as stated: in a successful 4-section run whose
parallel sections complete in the order `[3, 2]` (possible with
`maxParallel = 2`), the returned list is in section order but the
streamed (save-callback) deliveries occur in order `[0, 1, 3, 2]`, which
does not match section index order — refuting "the streamed order matches
section index". -/
theorem streamed_order_counterexample :
    (generateSlides exampleCallOne exampleSections [] [3, 2]).result
        = .ok [⟨"sec1", "payload", "image/png"⟩,
               ⟨"sec2", "payload", "image/png"⟩,
               ⟨"sec3", "payload", "image/png"⟩,
               ⟨"sec4", "payload", "image/png"⟩]
    ∧ (generateSlides exampleCallOne exampleSections []
          [3, 2]).deliveries.map Delivery.index = [0, 1, 3, 2]
    ∧ [0, 1, 3, 2] ≠ [0, 1, 2, 3] := by
  refine ⟨?_, ?_, ?_⟩ <;> decide

/-- Witness for C5: a 4-section run where section 3's call fails after
section 2 completed: the run errors, all four sections were called, and
exactly three artifacts (sections 0, 1, 2) were delivered. -/
theorem generate_slides_failure_isolation_witness :
    (generateSlides exampleFailCallOne exampleSections [] [2, 3]).result
        = .error "exhausted"
    ∧ (generateSlides exampleFailCallOne exampleSections []
          [2, 3]).calls.map SlideCall.index
        = List.range exampleSections.length
    ∧ (generateSlides exampleFailCallOne exampleSections []
          [2, 3]).deliveries.length = 3
    ∧ (generateSlides exampleFailCallOne exampleSections []
          [2, 3]).deliveries.map Delivery.index = [0, 1, 2] :=
  generate_slides_failure_isolation exampleFailCallOne
    ⟨"sec1", "Opening", "opening", "intro text", [], []⟩
    ⟨"sec2", "Method", "content", "method text", [], []⟩
    ⟨"sec3", "Results", "content", "results text", [], []⟩
    [⟨"sec4", "Ending", "ending", "ending text", [], []⟩] []
    (fun _ _ => ("payload", "image/png")) [2] [] 3 "exhausted"
    (fun _ => rfl) (fun _ => rfl)
    (fun i hi refs => by
      have h2 : i = 2 := by simpa using hi
      subst h2
      rfl)
    (fun _ => rfl)

/-- Witness for C7: in a concrete 4-section run, the recorded calls are
sections 0 and 1 without a style reference followed by the parallel
sections each carrying the style reference built from section 1's
payload. -/
theorem style_reference_carry_forward_witness :
    (generateSlides exampleCallOne exampleSections [] [2, 3]).calls
      = ⟨0, filterImages [⟨"sec1", "Opening", "opening", "intro text",
            [], []⟩] []⟩
        :: ⟨1, filterImages [⟨"sec2", "Method", "content", "method text",
            [], []⟩] []⟩
        :: (List.range' 2 (exampleSections.length - 2)).map
             (fun i => ⟨i, mkStyleRef "payload" "image/png" ::
               filterImages [exampleSections.getD i default] []⟩) :=
  (style_reference_carry_forward exampleCallOne [] [2, 3]).1
    ⟨"sec1", "Opening", "opening", "intro text", [], []⟩
    ⟨"sec2", "Method", "content", "method text", [], []⟩
    ⟨"sec3", "Results", "content", "results text", [], []⟩
    [⟨"sec4", "Ending", "ending", "ending text", [], []⟩]
    "payload" "image/png" "payload" "image/png"
    (fun _ => rfl) (fun _ => rfl)

/-- Counterexample to C7 as stated: a single-section run whose section
references a figure — the single generation call receives that figure
image as a reference image, refuting "the single generation call
receives no reference image". -/
theorem single_section_reference_counterexample :
    (generateSlides exampleCallOne
        [⟨"solo", "Only", "opening", "text", [], [⟨"fig1", ""⟩]⟩]
        [⟨"fig1", "a caption", "figpayload", "image/png"⟩] []).calls
      = [⟨0, [⟨"fig1", "a caption", "figpayload", "image/png"⟩]⟩]
    ∧ [(⟨0, [⟨"fig1", "a caption", "figpayload", "image/png"⟩]⟩ :
          SlideCall)].map SlideCall.refs ≠ [[]] := by
  constructor <;> decide

/-- Witness for C8: a concrete two-section poster plan makes exactly one
poster call composed from both sections and yields exactly one artifact;
a zero-section slides plan yields the empty run. -/
theorem poster_single_shot_witness :
    (generate exampleCallOne examplePosterCall (fun _ => default) []
        posterPlan "academic" "" 2 []).posterCalls
      = [⟨formatSectionsMarkdown posterPlan,
          filterImages posterPlan.sections []⟩]
    ∧ (generate exampleCallOne examplePosterCall (fun _ => default) []
        posterPlan "academic" "" 2 []).result
      = .ok [⟨"poster", "payload", "image/png"⟩]
    ∧ generate exampleCallOne examplePosterCall (fun _ => default) []
        emptySlidesPlan "academic" "" 2 []
      = ⟨.ok [], [], [], []⟩ :=
  ⟨((poster_single_shot exampleCallOne examplePosterCall (fun _ => default)
      [] posterPlan "academic" "" 2 []
      (fun h => absurd h (by decide))).1 rfl).1,
   (((poster_single_shot exampleCallOne examplePosterCall (fun _ => default)
      [] posterPlan "academic" "" 2 []
      (fun h => absurd h (by decide))).1 rfl).2.2.2 "payload" "image/png"
      rfl).1,
   (poster_single_shot exampleCallOne examplePosterCall (fun _ => default)
      [] emptySlidesPlan "academic" "" 2 []
      (fun h => absurd h (by decide))).2 (by decide) rfl⟩

/-- Witness for C9: with checkpoints present for exactly the first two
stages, the resume point is stage 2 ("plan"), the RunRecord marks stages
0 and 1 `completed`, and only stages 2 and 3 are invoked. -/
theorem resume_point_marking_witness :
    detect_start_stage exampleCheckpoint = STAGES.getD 2 ""
    ∧ initialStateFor exampleCheckpoint
        = (List.range STAGES.length).map
            (fun i => (STAGES.getD i "",
              if i < 2 then "completed" else "pending"))
    ∧ invokedStages (detect_start_stage exampleCheckpoint) = STAGES.drop 2
    ∧ (∀ i, i < 2 → STAGES.getD i ""
        ∉ invokedStages (detect_start_stage exampleCheckpoint)) :=
  resume_point_marking exampleCheckpoint 2 (by decide) (by decide)
    (by decide)

end Paper2Slides
